import Mathlib

/-!
Verification model of the artefact-ai-mobile data-enrichment and
semantic-retrieval pipeline.

The definitions below are shallow embeddings of:
  * the Met HTML harvester `backend/scripts/scrape-met-html-parallel.ts`
    (field extraction validator, monotonic merge, semaphore, per-item
    processing and run counters);
  * the semantic-search route `backend/src/routes/artwork.ts`
    (query processing, query embedding request, pgvector ranking query).

JavaScript string truthiness (`null` and `""` are falsy) is modelled
explicitly; machine floats are idealised as real numbers; the SQL
`SELECT ... WHERE embedding IS NOT NULL ORDER BY embedding <=> qv LIMIT k`
is modelled relationally (any distance-sorted permutation of the filtered
rows, truncated), since SQL leaves the relative order of ties unspecified.
-/

namespace Artefact

/-- Prefix test on character lists: `subAt pat l` holds when `pat` is a
prefix of `l`.  Used to model JavaScript `String.prototype.includes`. -/
def subAt : List Char → List Char → Bool
  | [], _ => true
  | _ :: _, [] => false
  | a :: as, b :: bs => a == b && subAt as bs

/-- Substring occurrence on character lists, scanning every suffix. -/
def hasSub (pat : List Char) : List Char → Bool
  | [] => subAt pat []
  | c :: cs => subAt pat (c :: cs) || hasSub pat cs

/-- Model of JavaScript `s.includes(pat)`. -/
def strHas (s pat : String) : Bool := hasSub pat.data s.data

/-- JavaScript truthiness of a nullable string: `null` and `""` are falsy. -/
def otruthy : Option String → Bool
  | none => false
  | some s => !s.isEmpty

/-- Description noise validator of `extractMetadata` in
`scrape-met-html-parallel.ts` (the conjunction guarding
`data.description = description`): JS truthiness, length strictly between
30 and 3000, and none of the navigation / brace / CSS / JS noise markers. -/
def isValidDescription (d : String) : Bool :=
  (!d.isEmpty) &&
  decide (30 < d.length) &&
  decide (d.length < 3000) &&
  !(strHas d "arrow keys") &&
  !(strHas d "navigate") &&
  !(strHas d "tabs below") &&
  !(strHas d "\x7b") &&
  !(strHas d "\x7d") &&
  !(strHas d "function") &&
  !(strHas d "px\x7d") &&
  !(strHas d "font-") &&
  !(strHas d "margin:") &&
  !(strHas d "padding:")

/-- The regex-path description of `extractMetadata`: the cleaned candidate
captured from the `artwork__intro__desc` div (argument `dm`) is kept only
when it passes `isValidDescription`; otherwise `data.description` stays
null. -/
def descFromIntroDiv (dm : Option String) : Option String :=
  match dm with
  | some d => if isValidDescription d then some d else none
  | none => none

/-- Description produced by `extractMetadata` as a function of the cleaned
regex candidate `dm` and the (truthy-checked, unvalidated) `description`
field `j` of the parsed JSON-LD block:
`if (jsonData.description) data.description = data.description || jsonData.description`. -/
def extractDescription (dm j : Option String) : Option String :=
  match descFromIntroDiv dm with
  | some d => some d
  | none =>
    match j with
    | some s => if s.isEmpty then none else some s
    | none => none

/-- The nullable enrichment fields of an `artwork` row that
`scrape-met-html-parallel.ts` reads or writes. -/
structure ArtworkRow where
  primary_image : Option String
  description : Option String
  artist : Option String
  date : Option String
  culture : Option String
  department : Option String
  credit_line : Option String
  classification : Option String
  artist_display_bio : Option String
deriving DecidableEq, Repr

/-- The record returned by `extractMetadata` (fields relevant to the
database merge; `medium` is returned but never written by the parallel
script, which skips medium extraction). -/
structure Metadata where
  iiif_image_url : Option String
  description : Option String
  artist : Option String
  date : Option String
  culture : Option String
  medium : Option String
  department : Option String
  credit_line : Option String
  classification : Option String
  artist_bio : Option String
deriving DecidableEq, Repr

/-- `const foundImage = metadata.iiif_image_url && !artworkItem.current_primary_image`. -/
def foundImage (item : ArtworkRow) (md : Metadata) : Bool :=
  otruthy md.iiif_image_url && !(otruthy item.primary_image)

/-- `const foundDescription = metadata.description && !artworkItem.current_description`. -/
def foundDescription (item : ArtworkRow) (md : Metadata) : Bool :=
  otruthy md.description && !(otruthy item.description)

/-- `const foundEnhancedData = metadata.artist || metadata.date || metadata.culture`. -/
def foundEnhancedData (md : Metadata) : Bool :=
  otruthy md.artist || otruthy md.date || otruthy md.culture

/-- Row state after applying the `updateData` object built in
`processArtwork`: `primary_image` and `description` are written only when
found and currently absent, while `artist`, `date`, `culture`,
`department`, `credit_line`, `classification` and `artist_display_bio` are
written whenever the extractor returned a truthy value ("Always update
rich metadata if we found it"). -/
def applyUpdate (item : ArtworkRow) (md : Metadata) : ArtworkRow :=
  { primary_image :=
      if otruthy md.iiif_image_url && !(otruthy item.primary_image) then
        md.iiif_image_url
      else item.primary_image
    description :=
      if otruthy md.description && !(otruthy item.description) then
        md.description
      else item.description
    artist := if otruthy md.artist then md.artist else item.artist
    date := if otruthy md.date then md.date else item.date
    culture := if otruthy md.culture then md.culture else item.culture
    department := if otruthy md.department then md.department else item.department
    credit_line := if otruthy md.credit_line then md.credit_line else item.credit_line
    classification :=
      if otruthy md.classification then md.classification else item.classification
    artist_display_bio :=
      if otruthy md.artist_bio then md.artist_bio else item.artist_display_bio }

/-- Row state after one `processArtwork` merge step: the database update
runs only under the `foundImage || foundDescription || foundEnhancedData`
gate, otherwise the row is untouched. -/
def mergeArtwork (item : ArtworkRow) (md : Metadata) : ArtworkRow :=
  if foundImage item md || foundDescription item md || foundEnhancedData md then
    applyUpdate item md
  else item

/-- Aggregate run counters of the parallel scraper (`stats` object). -/
structure Stats where
  processed : Nat
  updated : Nat
  skipped : Nat
  errors : Nat
  newImages : Nat
  newDescriptions : Nat
deriving DecidableEq, Repr

/-- All-zero counters (`stats` initialisation in `main`). -/
def statsZero : Stats :=
  { processed := 0, updated := 0, skipped := 0, errors := 0,
    newImages := 0, newDescriptions := 0 }

/-- Componentwise sum of counter deltas. -/
def addStats (a b : Stats) : Stats :=
  { processed := a.processed + b.processed
    updated := a.updated + b.updated
    skipped := a.skipped + b.skipped
    errors := a.errors + b.errors
    newImages := a.newImages + b.newImages
    newDescriptions := a.newDescriptions + b.newDescriptions }

/-- Classified outcome of the fetch-and-extract part of `processArtwork`
for one item: an HTTP error status, a 200 page recognised as not found
(`Page Not Found` / `404` markers or body shorter than 1000 bytes), real
content with its extracted metadata, or a thrown exception (network or
database failure reaching the `catch`). -/
inductive FetchObservation where
  | httpError (status : Nat)
  | notFoundPage
  | content (md : Metadata)
  | exn
deriving Repr

/-- Observable result of one `processArtwork` call: counter deltas, the
row written to the database (if any), the extra cooldown sleep taken in
the HTTP-error branch, whether the semaphore permit was released, and
whether the failure aborted the whole batch. -/
structure ItemResult where
  stats : Stats
  dbWrite : Option ArtworkRow
  cooldownMs : Nat
  permitReleased : Bool
  batchAborted : Bool
deriving Repr

/-- Counter delta of the HTTP-error branch: the item counts as one
processed and one errored. -/
def blockedDelta : Stats :=
  { processed := 1, updated := 0, skipped := 0, errors := 1,
    newImages := 0, newDescriptions := 0 }

/-- Full result of the HTTP 403/429 branch: error counted, nothing
written, fixed 5000 ms cooldown, permit released via `finally`, batch not
aborted. -/
def blockedResult : ItemResult :=
  { stats := blockedDelta, dbWrite := none, cooldownMs := 5000,
    permitReleased := true, batchAborted := false }

/-- One `processArtwork` call of `scrape-met-html-parallel.ts`, as a
function of the item's current row and the classified fetch observation.
`stats.processed` is incremented on entry; each branch then increments
exactly one of `updated`, `skipped`, `errors`; the 403/429 sub-branch
additionally sleeps 5000 ms; the `finally` block always releases the
semaphore permit; no branch rethrows, so the batch is never aborted.
The post-success 250 ms + jitter pacing sleep is not modelled. -/
def processArtworkModel (dryRun : Bool) (item : ArtworkRow)
    (obs : FetchObservation) : ItemResult :=
  match obs with
  | .httpError status =>
    { stats := blockedDelta
      dbWrite := none
      cooldownMs := if status == 403 || status == 429 then 5000 else 0
      permitReleased := true
      batchAborted := false }
  | .notFoundPage =>
    { stats := { processed := 1, updated := 0, skipped := 1, errors := 0,
                 newImages := 0, newDescriptions := 0 }
      dbWrite := none, cooldownMs := 0, permitReleased := true,
      batchAborted := false }
  | .content md =>
    if foundImage item md || foundDescription item md || foundEnhancedData md then
      { stats := { processed := 1, updated := 1, skipped := 0, errors := 0,
                   newImages := if foundImage item md then 1 else 0,
                   newDescriptions := if foundDescription item md then 1 else 0 }
        dbWrite := if dryRun then none else some (applyUpdate item md)
        cooldownMs := 0, permitReleased := true, batchAborted := false }
    else
      { stats := { processed := 1, updated := 0, skipped := 1, errors := 0,
                   newImages := 0, newDescriptions := 0 }
        dbWrite := none, cooldownMs := 0, permitReleased := true,
        batchAborted := false }
  | .exn =>
    { stats := { processed := 1, updated := 0, skipped := 0, errors := 1,
                 newImages := 0, newDescriptions := 0 }
      dbWrite := none, cooldownMs := 0, permitReleased := true,
      batchAborted := false }

/-- Final counters of a run over a worklist of (selected item, fetch
observation) pairs: each selected item is processed exactly once and its
counter deltas are summed (JS counter increments are atomic on the
single-threaded event loop, so the final totals equal this sum for every
interleaving). -/
def runStats (dryRun : Bool) (work : List (ArtworkRow × FetchObservation)) : Stats :=
  work.foldr (fun p acc => addStats (processArtworkModel dryRun p.1 p.2).stats acc)
    statsZero

/-- State of the `Semaphore` class together with the number of tasks
currently inside the acquire/release bracket (the fetch phase):
`permits` and `waiting.length` are the class fields, `inCrit` counts
tasks that completed `acquire()` and have not yet called `release()`. -/
structure SemState where
  permits : Nat
  waiting : Nat
  inCrit : Nat
deriving DecidableEq, Repr

/-- Atomic transitions of the `Semaphore` as used by `processArtwork`
(each method body runs without interleaving on the JS event loop):
`acquire()` with a permit available decrements `permits` and admits the
caller; `acquire()` with no permit pushes the caller onto `waiting`;
`release()` with an empty queue returns the permit; `release()` with a
waiter increments then immediately decrements `permits` and hands
admission directly to the dequeued waiter. -/
inductive SemStep : SemState → SemState → Prop
  | acquireNow (p w c : Nat) :
      SemStep { permits := p + 1, waiting := w, inCrit := c }
        { permits := p, waiting := w, inCrit := c + 1 }
  | acquireWait (w c : Nat) :
      SemStep { permits := 0, waiting := w, inCrit := c }
        { permits := 0, waiting := w + 1, inCrit := c }
  | releaseNoWaiter (p c : Nat) :
      SemStep { permits := p, waiting := 0, inCrit := c + 1 }
        { permits := p + 1, waiting := 0, inCrit := c }
  | releaseWaiter (p w c : Nat) :
      SemStep { permits := p, waiting := w + 1, inCrit := c + 1 }
        { permits := p, waiting := w, inCrit := c + 1 }

/-- States reachable from a freshly constructed `new Semaphore(n)` under
any interleaving of acquire and release calls. -/
def SemReachable (n : Nat) (s : SemState) : Prop :=
  Relation.ReflTransGen SemStep { permits := n, waiting := 0, inCrit := 0 } s

/-- Dot product over real vectors of dimension `n`. -/
def dotR {n : Nat} (u v : Fin n → ℝ) : ℝ := ∑ i, u i * v i

/-- Euclidean norm over real vectors. -/
noncomputable def normR {n : Nat} (u : Fin n → ℝ) : ℝ := Real.sqrt (dotR u u)

/-- pgvector cosine distance `u <=> v`, idealised over the reals. -/
noncomputable def cosineDistance {n : Nat} (u v : Fin n → ℝ) : ℝ :=
  1 - dotR u v / (normR u * normR v)

/-- The `similarity` column of the semantic-search query:
`1 - (embedding <=> query_vector)`. -/
noncomputable def similarity {n : Nat} (u v : Fin n → ℝ) : ℝ :=
  1 - cosineDistance u v

/-- An `artwork` row as seen by the ranking query: its stable external id
and its nullable stored embedding. -/
structure ArtworkVec (n : Nat) where
  object_id : Int
  embedding : Option (Fin n → ℝ)

/-- Predicate of the SQL filter `WHERE embedding IS NOT NULL`. -/
def hasEmbedding {n : Nat} (r : ArtworkVec n) : Bool := r.embedding.isSome

/-- Cosine distance of a selected row to the query vector (the filter
guarantees the embedding is present; a zero default keeps the function
total). -/
noncomputable def rowDistance {n : Nat} (qv : Fin n → ℝ) (r : ArtworkVec n) : ℝ :=
  cosineDistance qv (r.embedding.getD (fun _ => 0))

/-- The similarity score the route reports for a selected row. -/
noncomputable def rowSimilarity {n : Nat} (qv : Fin n → ℝ) (r : ArtworkVec n) : ℝ :=
  1 - rowDistance qv r

/-- The `ORDER BY embedding <=> qv` clause as a sortedness predicate:
each row precedes the rows at greater or equal distance. -/
def SqlOrdered {n : Nat} (qv : Fin n → ℝ) (l : List (ArtworkVec n)) : Prop :=
  l.Pairwise (fun a b => rowDistance qv a ≤ rowDistance qv b)

/-- Relational semantics of the ranking query
`SELECT ... WHERE embedding IS NOT NULL ORDER BY embedding <=> qv LIMIT k`:
a result is any distance-sorted permutation of the embedded rows,
truncated to `k`.  SQL fixes the sort key only, so rows at equal distance
may appear in either order. -/
def ValidRanking {n : Nat} (qv : Fin n → ℝ) (store : List (ArtworkVec n))
    (k : Nat) (result : List (ArtworkVec n)) : Prop :=
  ∃ l, (store.filter hasEmbedding).Perm l ∧ SqlOrdered qv l ∧ result = l.take k

/-- The route's result cap: `.limit(Math.min(limit, 50))`. -/
def searchLimit (limit : Nat) : Nat := min limit 50

/-- Ranking as invoked by the semantic-search route for requested
limit `limit`. -/
def RouteRanking {n : Nat} (qv : Fin n → ℝ) (store : List (ArtworkVec n))
    (limit : Nat) (result : List (ArtworkVec n)) : Prop :=
  ValidRanking qv store (searchLimit limit) result

/-- Body of the request the route sends to
`https://api.openai.com/v1/embeddings`. -/
structure EmbeddingRequest where
  input : String
  model : String
  dimensions : Nat
deriving DecidableEq, Repr

/-- The query-side embedding request built in the semantic-search route:
`JSON.stringify(.. input: processedQuery, model: 'text-embedding-3-large', dimensions: 3072 ..)`. -/
def queryEmbeddingRequest (processedQuery : String) : EmbeddingRequest :=
  { input := processedQuery, model := "text-embedding-3-large", dimensions := 3072 }

/-- Modelled from the spec: the Embedding Batch Generator script is not in
the repository source; `README_PHASE1C.md` documents its model as
`text-embedding-3-large`. -/
def generationEmbeddingModel : String := "text-embedding-3-large"

/-- Modelled from the spec: the Embedding Batch Generator script is not in
the repository source; `README_PHASE1C.md` documents "Dimensions: 1536
(explicitly specified)", matching the `embedding VECTOR(1536)` column of
the project specification's schema. -/
def generationEmbeddingDimensions : Nat := 1536

/-- HTTP outcome of the `POST /api/artwork/semantic-search` handler:
400 for a missing/empty query, 500 from the generic catch branch, 503
from the `OpenAI embedding failed` catch branch, or a 200 payload with
the processed query, the ranked artworks and their count. -/
inductive RouteOutcome (n : Nat) where
  | badRequest
  | serverError
  | serviceUnavailable
  | ok (processedQuery : String) (artworks : List (ArtworkVec n)) (total : Nat)

/-- Control flow of the semantic-search route.  `textGen` is the
`generateText` call cleaning the query (`Except` failure = thrown
provider error), `embed` the OpenAI embeddings call (`Except` failure =
non-ok HTTP status, thrown as `OpenAI embedding failed: ...`), and
`dbRows` the rows produced by the ranking query (constrained by
`RouteRanking` separately).  A `generateText` failure propagates to the
route's catch handler, whose message test selects the generic 500 branch;
there is no fallback path that reuses the raw query. -/
def semanticSearchOutcome {n : Nat} (query : Option String)
    (textGen : String → Except Unit String)
    (embed : String → Except Nat (Fin n → ℝ))
    (dbRows : List (ArtworkVec n)) : RouteOutcome n :=
  match query with
  | none => .badRequest
  | some q =>
    if q.isEmpty then .badRequest
    else
      match textGen q with
      | .error _ => .serverError
      | .ok pq =>
        match embed pq with
        | .error _ => .serviceUnavailable
        | .ok _ => .ok pq dbRows dbRows.length

/-- Concrete item whose `artist` field is already populated (selected for
harvesting because its image is still missing). -/
def itemArtistSet : ArtworkRow :=
  { primary_image := none, description := none, artist := some "Rembrandt",
    date := none, culture := none, department := none, credit_line := none,
    classification := none, artist_display_bio := none }

/-- Concrete extraction result carrying a different non-empty artist. -/
def mdNewArtist : Metadata :=
  { iiif_image_url := none, description := none, artist := some "Vermeer",
    date := none, culture := none, medium := none, department := none,
    credit_line := none, classification := none, artist_bio := none }

/-- Concrete item with every enrichment field populated. -/
def itemFull : ArtworkRow :=
  { primary_image := some "https://images.example/iiif/1/2/full.jpg",
    description := some "existing text", artist := some "Rembrandt",
    date := some "1642", culture := some "Dutch",
    department := some "European Paintings", credit_line := some "Gift",
    classification := some "Paintings", artist_display_bio := some "Dutch, 1606" }

/-- A 40-character description candidate free of noise markers. -/
def cleanDescription : String :=
  "A quiet landscape painted in muted tones."

/-- Concrete query vector along the first axis. -/
def vE1 : Fin 2 → ℝ := ![1, 0]

/-- Concrete stored vector opposite to `vE1`. -/
def vE1neg : Fin 2 → ℝ := ![-1, 0]

/-- Concrete stored vector orthogonal to `vE1`. -/
def vE2 : Fin 2 → ℝ := ![0, 1]

/-- Row aligned with the query vector. -/
def rA : ArtworkVec 2 := { object_id := 10, embedding := some vE1 }

/-- Row orthogonal to the query vector. -/
def rB : ArtworkVec 2 := { object_id := 11, embedding := some vE2 }

/-- Row without a stored embedding. -/
def rNoEmb : ArtworkVec 2 := { object_id := 12, embedding := none }

/-- First of two rows with identical embeddings (a similarity tie). -/
def rT1 : ArtworkVec 2 := { object_id := 1, embedding := some vE1 }

/-- Second of two rows with identical embeddings (a similarity tie). -/
def rT2 : ArtworkVec 2 := { object_id := 2, embedding := some vE1 }

/-- Row whose embedding points away from the query vector. -/
def rNeg : ArtworkVec 2 := { object_id := 5, embedding := some vE1neg }

/-- Store with two embedded rows at distinct distances and one row
without an embedding. -/
def store2 : List (ArtworkVec 2) := [rA, rB, rNoEmb]

/-- Store with two rows tied at distance zero. -/
def storeT : List (ArtworkVec 2) := [rT1, rT2]

/-- Store with one row at cosine distance two from the query. -/
def storeNeg : List (ArtworkVec 2) := [rNeg]

/-- Text-generation stub that always fails (provider error / timeout). -/
def tgFail : String → Except Unit String := fun _ => .error ()

/-- Embedding stub that always succeeds. -/
def embedOk : String → Except Nat (Fin 2 → ℝ) := fun _ => .ok vE1

/-! ## Theorems -/

/-- A truthy nullable string is non-null. -/
theorem otruthy_isSome {o : Option String} (h : otruthy o = true) :
    o.isSome = true := by
  cases o <;> simp_all [otruthy]

/-- C2 counterexample: the merge of `processArtwork` overwrites a
populated `artist` field with a different extracted value, so the claimed
null-to-non-null-only transition discipline fails on the `artist` field. -/
theorem c2_counterexample :
    itemArtistSet.artist = some "Rembrandt" ∧
    (mergeArtwork itemArtistSet mdNewArtist).artist = some "Vermeer" ∧
    (mergeArtwork itemArtistSet mdNewArtist).artist ≠ itemArtistSet.artist := by
  decide

/-- C2 (amended): the merge of `processArtwork` is monotonic for
`primary_image` and `description` (a truthy stored value is never
replaced), and no tracked field is ever cleared: every field that is
non-null before the merge is still non-null after it; the remaining
fields may however be overwritten by a new truthy extracted value. -/
theorem c2_merge_guard (item : ArtworkRow) (md : Metadata) :
    (otruthy item.primary_image = true →
      (mergeArtwork item md).primary_image = item.primary_image) ∧
    (otruthy item.description = true →
      (mergeArtwork item md).description = item.description) ∧
    (item.primary_image.isSome = true →
      (mergeArtwork item md).primary_image.isSome = true) ∧
    (item.description.isSome = true →
      (mergeArtwork item md).description.isSome = true) ∧
    (item.artist.isSome = true → (mergeArtwork item md).artist.isSome = true) ∧
    (item.date.isSome = true → (mergeArtwork item md).date.isSome = true) ∧
    (item.culture.isSome = true → (mergeArtwork item md).culture.isSome = true) ∧
    (item.department.isSome = true →
      (mergeArtwork item md).department.isSome = true) ∧
    (item.credit_line.isSome = true →
      (mergeArtwork item md).credit_line.isSome = true) ∧
    (item.classification.isSome = true →
      (mergeArtwork item md).classification.isSome = true) ∧
    (item.artist_display_bio.isSome = true →
      (mergeArtwork item md).artist_display_bio.isSome = true) := by
  unfold mergeArtwork applyUpdate
  split
  · refine ⟨?_, ?_, ?_, ?_, ?_, ?_, ?_, ?_, ?_, ?_, ?_⟩ <;> intro h <;>
      first
        | (simp [h]; done)
        | (dsimp only
           split
           · exact otruthy_isSome (by simp_all)
           · exact h)
  · exact ⟨fun _ => rfl, fun _ => rfl, fun h => h, fun h => h, fun h => h,
      fun h => h, fun h => h, fun h => h, fun h => h, fun h => h, fun h => h⟩

/-- C2 witness: on an item with every field populated, the merge leaves
`primary_image` and `description` untouched and keeps `artist` non-null. -/
theorem c2_witness :
    (mergeArtwork itemFull mdNewArtist).primary_image = itemFull.primary_image ∧
    (mergeArtwork itemFull mdNewArtist).description = itemFull.description ∧
    (mergeArtwork itemFull mdNewArtist).artist.isSome = true :=
  ⟨(c2_merge_guard itemFull mdNewArtist).1 (by decide),
   (c2_merge_guard itemFull mdNewArtist).2.1 (by decide),
   (c2_merge_guard itemFull mdNewArtist).2.2.2.2.1 (by decide)⟩

/-- C9 counterexample: when the intro-div regex path yields nothing, the
JSON-LD fallback returns its description without running the noise
validator, so a five-character candidate below the 30-character floor is
returned even though the validator rejects it. -/
theorem c9_counterexample :
    extractDescription none (some "short") = some "short" ∧
    ¬(30 < "short".length) ∧
    isValidDescription "short" = false := by
  decide

/-- C9 (amended): every description produced by the intro-div regex path
(the only path when the document has no JSON-LD description) satisfies
the noise validator: length strictly between 30 and 3000, no brace
characters, and no `px`-brace / `margin:` / `font-` CSS markers;
descriptions taken from the JSON-LD fallback are returned unvalidated. -/
theorem c9_introDesc_validated (dm : Option String) (d : String)
    (h : extractDescription dm none = some d) :
    isValidDescription d = true ∧ 30 < d.length ∧ d.length < 3000 ∧
    strHas d "\x7b" = false ∧ strHas d "\x7d" = false ∧
    strHas d "px\x7d" = false ∧ strHas d "margin:" = false ∧
    strHas d "font-" = false := by
  cases dm with
  | none => simp [extractDescription, descFromIntroDiv] at h
  | some c =>
    by_cases hv : isValidDescription c = true
    · have hdc : d = c := by
        simp [extractDescription, descFromIntroDiv, hv] at h
        exact h.symm
      subst hdc
      have hv' := hv
      simp only [isValidDescription, Bool.and_eq_true, Bool.not_eq_true',
        decide_eq_true_eq] at hv'
      obtain ⟨⟨⟨⟨⟨⟨⟨⟨⟨⟨⟨⟨hne, h30⟩, h3000⟩, hak⟩, hnav⟩, htab⟩, hob⟩, hcb⟩,
        hfun⟩, hpx⟩, hfont⟩, hmar⟩, hpad⟩ := hv'
      exact ⟨hv, h30, h3000, hob, hcb, hpx, hmar, hfont⟩
    · simp [extractDescription, descFromIntroDiv, hv] at h

/-- C9 witness: a clean 41-character candidate passes through the regex
path and satisfies every validator bound. -/
theorem c9_witness :
    isValidDescription cleanDescription = true ∧
    30 < cleanDescription.length ∧ cleanDescription.length < 3000 ∧
    strHas cleanDescription "\x7b" = false ∧
    strHas cleanDescription "\x7d" = false ∧
    strHas cleanDescription "px\x7d" = false ∧
    strHas cleanDescription "margin:" = false ∧
    strHas cleanDescription "font-" = false :=
  c9_introDesc_validated (some cleanDescription) cleanDescription (by decide)

/-- Each branch of `processArtwork` counts the item as processed exactly
once and increments exactly one of `updated`, `skipped`, `errors`. -/
theorem perItem_delta (d : Bool) (item : ArtworkRow) (obs : FetchObservation) :
    (processArtworkModel d item obs).stats.processed = 1 ∧
    (processArtworkModel d item obs).stats.updated +
      (processArtworkModel d item obs).stats.skipped +
      (processArtworkModel d item obs).stats.errors = 1 := by
  cases obs with
  | content md =>
    simp only [processArtworkModel]
    split <;> simp
  | httpError s => simp [processArtworkModel, blockedDelta]
  | notFoundPage => simp [processArtworkModel]
  | exn => simp [processArtworkModel]

/-- C10: at the end of a run the counters partition the worklist:
`processed` equals the number of selected items and equals
`updated + skipped + errors`. -/
theorem c10_partition (d : Bool) (work : List (ArtworkRow × FetchObservation)) :
    (runStats d work).processed = work.length ∧
    (runStats d work).processed =
      (runStats d work).updated + (runStats d work).skipped +
        (runStats d work).errors := by
  induction work with
  | nil => simp [runStats, statsZero]
  | cons p rest ih =>
    have hstep : runStats d (p :: rest) =
        addStats (processArtworkModel d p.1 p.2).stats (runStats d rest) := rfl
    have hd := perItem_delta d p.1 p.2
    rw [hstep]
    simp only [addStats, List.length_cons]
    omega

/-- C8: an HTTP 403/429 response makes `processArtwork` count the item as
errored, write nothing, sleep the fixed 5000 ms cooldown, release the
permit, and not abort; the run's remaining worklist is still processed
(the batch counters just add this item's error delta). -/
theorem c8_blocked_outcome (d : Bool) (item : ArtworkRow) (s : Nat)
    (h : s = 403 ∨ s = 429) :
    processArtworkModel d item (.httpError s) = blockedResult ∧
    (∀ rest, runStats d ((item, .httpError s) :: rest) =
      addStats blockedDelta (runStats d rest)) := by
  rcases h with rfl | rfl <;> exact ⟨rfl, fun _ => rfl⟩

/-- C8 witness: concrete HTTP 429 observation on a fully populated item. -/
theorem c8_witness :
    processArtworkModel false itemFull (FetchObservation.httpError 429) =
      blockedResult ∧
    runStats false [(itemFull, FetchObservation.httpError 429)] =
      addStats blockedDelta (runStats false []) :=
  ⟨(c8_blocked_outcome false itemFull 429 (Or.inr rfl)).1,
   (c8_blocked_outcome false itemFull 429 (Or.inr rfl)).2 []⟩

/-- Reachable semaphore states satisfy `inCrit + permits = n`: every
transition of the `Semaphore` class conserves the sum of free permits and
tasks inside the acquire/release bracket. -/
theorem semInvariant (n : Nat) (s : SemState) (h : SemReachable n s) :
    s.inCrit + s.permits = n := by
  induction h with
  | refl => simp
  | tail _ hstep ih => cases hstep <;> simp_all <;> omega

/-- C7: under the semaphore with capacity `n`, in every reachable state
of every interleaving, at most `n` tasks are simultaneously between
`acquire()` and `release()` (the in-flight fetch bound). -/
theorem c7_bounded (n : Nat) (s : SemState) (h : SemReachable n s) :
    s.inCrit ≤ n := by
  have := semInvariant n s h
  omega

/-- C7 witness: after one acquire on a capacity-15 semaphore (the
script's `CONCURRENCY`), one task is in flight, within the bound. -/
theorem c7_witness :
    SemReachable 15 { permits := 14, waiting := 0, inCrit := 1 } ∧
    ({ permits := 14, waiting := 0, inCrit := 1 } : SemState).inCrit ≤ 15 :=
  have hr : SemReachable 15 { permits := 14, waiting := 0, inCrit := 1 } :=
    Relation.ReflTransGen.single (SemStep.acquireNow 14 0 0)
  ⟨hr, c7_bounded 15 _ hr⟩

/-- The dot product of a vector with itself is nonnegative. -/
theorem dotR_self_nonneg {n : Nat} (u : Fin n → ℝ) : 0 ≤ dotR u u :=
  Finset.sum_nonneg fun i _ => mul_self_nonneg (u i)

/-- Norms are nonnegative. -/
theorem normR_nonneg {n : Nat} (u : Fin n → ℝ) : 0 ≤ normR u :=
  Real.sqrt_nonneg _

/-- Cauchy-Schwarz for `dotR`, squared form. -/
theorem sq_dotR_le {n : Nat} (u v : Fin n → ℝ) :
    dotR u v ^ 2 ≤ dotR u u * dotR v v := by
  have h := Finset.sum_mul_sq_le_sq_mul_sq Finset.univ u v
  simpa [dotR, pow_two] using h

/-- Cauchy-Schwarz for `dotR`: the dot product is bounded by the product
of norms. -/
theorem abs_dotR_le {n : Nat} (u v : Fin n → ℝ) :
    |dotR u v| ≤ normR u * normR v := by
  have h1 : |dotR u v| = Real.sqrt (dotR u v ^ 2) := (Real.sqrt_sq_eq_abs _).symm
  rw [h1, normR, normR, ← Real.sqrt_mul (dotR_self_nonneg u)]
  exact Real.sqrt_le_sqrt (sq_dotR_le u v)

/-- The reported similarity is the cosine of the angle between the
vectors. -/
theorem similarity_eq {n : Nat} (u v : Fin n → ℝ) :
    similarity u v = dotR u v / (normR u * normR v) := by
  simp [similarity, cosineDistance]

/-- The similarity `1 - cosineDistance` always lies in `[-1, 1]` (the
cosine distance lies in `[0, 2]`), not in `[0, 1]`. -/
theorem similarity_bounds {n : Nat} (u v : Fin n → ℝ) :
    -1 ≤ similarity u v ∧ similarity u v ≤ 1 := by
  rw [similarity_eq]
  rcases eq_or_lt_of_le (mul_nonneg (normR_nonneg u) (normR_nonneg v)) with h | h
  · rw [← h, div_zero]
    norm_num
  · have habs : |dotR u v / (normR u * normR v)| ≤ 1 := by
      rw [abs_div, abs_of_pos h]
      exact div_le_one_of_le₀ (abs_dotR_le u v) (le_of_lt h)
    exact abs_le.mp habs

/-- A ranking result inherits the distance sortedness of the underlying
ordered selection. -/
theorem validRanking_sorted {n : Nat} (qv : Fin n → ℝ)
    {store : List (ArtworkVec n)} {k : Nat} {result : List (ArtworkVec n)}
    (h : ValidRanking qv store k result) :
    result.Pairwise (fun a b => rowDistance qv a ≤ rowDistance qv b) := by
  obtain ⟨l, _, hs, rfl⟩ := h
  unfold SqlOrdered at hs
  exact hs.sublist (List.take_sublist k l)

/-- Every row of a ranking result comes from the `embedding IS NOT NULL`
selection. -/
theorem validRanking_mem {n : Nat} (qv : Fin n → ℝ)
    {store : List (ArtworkVec n)} {k : Nat} {result : List (ArtworkVec n)}
    (h : ValidRanking qv store k result) {r : ArtworkVec n} (hr : r ∈ result) :
    r.embedding.isSome = true := by
  obtain ⟨l, hperm, _, rfl⟩ := h
  have hrl : r ∈ l := List.mem_of_mem_take hr
  have hrf : r ∈ store.filter hasEmbedding := hperm.mem_iff.mpr hrl
  simpa [hasEmbedding] using (List.mem_filter.mp hrf).2

/-- Dot products in dimension two, expanded. -/
theorem dotR_fin2 (u v : Fin 2 → ℝ) : dotR u v = u 0 * v 0 + u 1 * v 1 := by
  simp [dotR, Fin.sum_univ_two]

/-- The concrete query vector is a unit vector. -/
theorem normR_vE1 : normR vE1 = 1 := by
  have h : dotR vE1 vE1 = 1 := by rw [dotR_fin2]; norm_num [vE1]
  rw [normR, h, Real.sqrt_one]

/-- The orthogonal stored vector is a unit vector. -/
theorem normR_vE2 : normR vE2 = 1 := by
  have h : dotR vE2 vE2 = 1 := by rw [dotR_fin2]; norm_num [vE2]
  rw [normR, h, Real.sqrt_one]

/-- The opposite stored vector is a unit vector. -/
theorem normR_vE1neg : normR vE1neg = 1 := by
  have h : dotR vE1neg vE1neg = 1 := by rw [dotR_fin2]; norm_num [vE1neg]
  rw [normR, h, Real.sqrt_one]

/-- A row aligned with the query has cosine distance zero. -/
theorem rowDist_rA : rowDistance vE1 rA = 0 := by
  show cosineDistance vE1 vE1 = 0
  have h : dotR vE1 vE1 = 1 := by rw [dotR_fin2]; norm_num [vE1]
  rw [cosineDistance, h, normR_vE1]
  norm_num

/-- A row orthogonal to the query has cosine distance one. -/
theorem rowDist_rB : rowDistance vE1 rB = 1 := by
  show cosineDistance vE1 vE2 = 1
  have h : dotR vE1 vE2 = 0 := by rw [dotR_fin2]; norm_num [vE1, vE2]
  rw [cosineDistance, h, normR_vE1, normR_vE2]
  norm_num

/-- A row opposite to the query has cosine distance two. -/
theorem rowDist_rNeg : rowDistance vE1 rNeg = 2 := by
  show cosineDistance vE1 vE1neg = 2
  have h : dotR vE1 vE1neg = -1 := by rw [dotR_fin2]; norm_num [vE1, vE1neg]
  rw [cosineDistance, h, normR_vE1, normR_vE1neg]
  norm_num

/-- Both tied rows sit at cosine distance zero from the query. -/
theorem rowDist_rT : rowDistance vE1 rT1 = 0 ∧ rowDistance vE1 rT2 = 0 :=
  ⟨rowDist_rA, rowDist_rA⟩

/-- Concrete ranking of `store2`: the aligned row precedes the orthogonal
row; the row without an embedding is filtered out. -/
theorem rank_store2 : RouteRanking vE1 store2 50 [rA, rB] := by
  refine ⟨[rA, rB], List.Perm.refl _, ?_, rfl⟩
  unfold SqlOrdered
  refine List.Pairwise.cons ?_ (List.pairwise_singleton _ _)
  intro b hb
  rw [List.mem_singleton] at hb
  subst hb
  rw [rowDist_rA, rowDist_rB]
  norm_num

/-- Concrete tied ranking, first order. -/
theorem rank_T12 : RouteRanking vE1 storeT 20 [rT1, rT2] := by
  refine ⟨[rT1, rT2], List.Perm.refl _, ?_, rfl⟩
  unfold SqlOrdered
  refine List.Pairwise.cons ?_ (List.pairwise_singleton _ _)
  intro b hb
  rw [List.mem_singleton] at hb
  subst hb
  rw [rowDist_rT.1, rowDist_rT.2]

/-- Concrete tied ranking, swapped order: also a valid answer of the
same query on the same store. -/
theorem rank_T21 : RouteRanking vE1 storeT 20 [rT2, rT1] := by
  refine ⟨[rT2, rT1], List.Perm.swap rT2 rT1 [], ?_, rfl⟩
  unfold SqlOrdered
  refine List.Pairwise.cons ?_ (List.pairwise_singleton _ _)
  intro b hb
  rw [List.mem_singleton] at hb
  subst hb
  rw [rowDist_rT.1, rowDist_rT.2]

/-- Concrete ranking of the store holding only the opposite-direction
row. -/
theorem rank_neg : RouteRanking vE1 storeNeg 20 [rNeg] :=
  ⟨[rNeg], List.Perm.refl _, List.pairwise_singleton _ _, rfl⟩

/-- C4 counterexample: on a store with two rows of identical embeddings,
both orders are valid answers of the ranking query (the SQL has no
`object_id` tie-break), so two invocations can return different ordered
lists, and ties can appear with `object_id` descending. -/
theorem c4_counterexample :
    RouteRanking vE1 storeT 20 [rT1, rT2] ∧
    RouteRanking vE1 storeT 20 [rT2, rT1] ∧
    ([rT1, rT2] : List (ArtworkVec 2)) ≠ [rT2, rT1] ∧
    rowSimilarity vE1 rT1 = rowSimilarity vE1 rT2 ∧
    ¬(rT2.object_id ≤ rT1.object_id) := by
  refine ⟨rank_T12, rank_T21, ?_, rfl, by decide⟩
  intro h
  have h1 : rT1 = rT2 := (List.cons.injEq _ _ _ _).mp h |>.1
  have h2 := congrArg ArtworkVec.object_id h1
  simp [rT1, rT2] at h2

/-- C4 (amended): for a fixed query vector and store, the ranking query
is deterministic up to ties: any two valid invocations return the same
sequence of similarity scores, sorted non-increasingly; only the relative
order of rows with numerically equal similarity may differ, since the
query orders by distance alone with no `object_id` tie-break. -/
theorem c4_scores_deterministic {n : Nat} (qv : Fin n → ℝ)
    (store : List (ArtworkVec n)) (limit : Nat)
    (r1 r2 : List (ArtworkVec n))
    (h1 : RouteRanking qv store limit r1) (h2 : RouteRanking qv store limit r2) :
    r1.map (rowSimilarity qv) = r2.map (rowSimilarity qv) ∧
    r1.Pairwise (fun a b => rowSimilarity qv b ≤ rowSimilarity qv a) := by
  constructor
  · obtain ⟨l1, hp1, hs1, rfl⟩ := h1
    obtain ⟨l2, hp2, hs2, rfl⟩ := h2
    unfold SqlOrdered at hs1 hs2
    have hperm : (l1.map (rowDistance qv)).Perm (l2.map (rowDistance qv)) :=
      (hp1.symm.trans hp2).map _
    have hsorted1 : (l1.map (rowDistance qv)).Pairwise (· ≤ ·) :=
      List.pairwise_map.mpr hs1
    have hsorted2 : (l2.map (rowDistance qv)).Pairwise (· ≤ ·) :=
      List.pairwise_map.mpr hs2
    have heq : l1.map (rowDistance qv) = l2.map (rowDistance qv) :=
      List.eq_of_perm_of_sorted hperm hsorted1 hsorted2
    have hm1 : (l1.take (searchLimit limit)).map (rowSimilarity qv) =
        ((l1.map (rowDistance qv)).take (searchLimit limit)).map (fun d => 1 - d) := by
      rw [List.map_take, List.map_take, List.map_map]
      rfl
    have hm2 : (l2.take (searchLimit limit)).map (rowSimilarity qv) =
        ((l2.map (rowDistance qv)).take (searchLimit limit)).map (fun d => 1 - d) := by
      rw [List.map_take, List.map_take, List.map_map]
      rfl
    rw [hm1, hm2, heq]
  · have hs := validRanking_sorted qv h1
    refine hs.imp ?_
    intro a b hab
    unfold rowSimilarity
    linarith

/-- C4 witness: the two tied invocations report the same score sequence,
sorted non-increasingly. -/
theorem c4_witness :
    ([rT1, rT2].map (rowSimilarity vE1) = [rT2, rT1].map (rowSimilarity vE1)) ∧
    rowSimilarity vE1 rT2 ≤ rowSimilarity vE1 rT1 := by
  have h := c4_scores_deterministic vE1 storeT 20 [rT1, rT2] [rT2, rT1]
    rank_T12 rank_T21
  exact ⟨h.1, (List.pairwise_cons.mp h.2).1 rT2 (by simp)⟩

/-- C5 counterexample: a stored embedding pointing away from the query
yields cosine distance `2` and similarity `1 - 2 = -1 < 0`, refuting the
claimed lower bound `0 ≤ similarity`. -/
theorem c5_counterexample :
    RouteRanking vE1 storeNeg 20 [rNeg] ∧
    rowSimilarity vE1 rNeg = -1 ∧
    ¬(0 ≤ rowSimilarity vE1 rNeg) := by
  have hval : rowSimilarity vE1 rNeg = -1 := by
    unfold rowSimilarity
    rw [rowDist_rNeg]
    norm_num
  refine ⟨rank_neg, hval, ?_⟩
  rw [hval]
  norm_num

/-- C5 (amended): every similarity score of a returned row lies in
`[-1, 1]` (it equals `1 -` a cosine distance in `[0, 2]`), and the
returned list is in non-increasing similarity order. -/
theorem c5_bounds_and_order {n : Nat} (qv : Fin n → ℝ)
    (store : List (ArtworkVec n)) (limit : Nat) (result : List (ArtworkVec n))
    (h : RouteRanking qv store limit result) :
    (∀ r ∈ result, -1 ≤ rowSimilarity qv r ∧ rowSimilarity qv r ≤ 1) ∧
    result.Pairwise (fun a b => rowSimilarity qv b ≤ rowSimilarity qv a) := by
  constructor
  · intro r _
    exact similarity_bounds qv (r.embedding.getD (fun _ => 0))
  · have hs := validRanking_sorted qv h
    refine hs.imp ?_
    intro a b hab
    unfold rowSimilarity
    linarith

/-- C5 witness: on the two-row store, both returned scores lie in
`[-1, 1]` and the second is at most the first. -/
theorem c5_witness :
    (-1 ≤ rowSimilarity vE1 rA ∧ rowSimilarity vE1 rA ≤ 1) ∧
    (-1 ≤ rowSimilarity vE1 rB ∧ rowSimilarity vE1 rB ≤ 1) ∧
    rowSimilarity vE1 rB ≤ rowSimilarity vE1 rA := by
  have h := c5_bounds_and_order vE1 store2 50 [rA, rB] rank_store2
  exact ⟨h.1 rA (by simp), h.1 rB (by simp),
    (List.pairwise_cons.mp h.2).1 rB (by simp)⟩

/-- C6: the semantic-search result contains only rows with a non-null
stored embedding and at most `min(limit, 50)` rows. -/
theorem c6_embedded_and_capped {n : Nat} (qv : Fin n → ℝ)
    (store : List (ArtworkVec n)) (limit : Nat) (result : List (ArtworkVec n))
    (h : RouteRanking qv store limit result) :
    (∀ r ∈ result, r.embedding.isSome = true) ∧
    result.length ≤ min limit 50 := by
  refine ⟨fun r hr => validRanking_mem qv h hr, ?_⟩
  obtain ⟨l, _, _, rfl⟩ := h
  calc (l.take (searchLimit limit)).length ≤ searchLimit limit := by
        rw [List.length_take]
        exact min_le_left _ _
    _ = min limit 50 := rfl

/-- C6 witness: both returned rows of the two-row store carry embeddings
and the result respects the cap. -/
theorem c6_witness :
    rA.embedding.isSome = true ∧ rB.embedding.isSome = true ∧
    ([rA, rB] : List (ArtworkVec 2)).length ≤ min 50 50 := by
  have h := c6_embedded_and_capped vE1 store2 50 [rA, rB] rank_store2
  exact ⟨h.1 rA (by simp), h.1 rB (by simp), h.2⟩

/-- C3 counterexample: with a failing text-generation provider the route
returns the 500 error outcome, not a 200 result ranked under the raw
query; there is no raw-query fallback. -/
theorem c3_counterexample :
    semanticSearchOutcome (n := 2) (some "mexican") tgFail embedOk [] =
      RouteOutcome.serverError ∧
    semanticSearchOutcome (n := 2) (some "mexican") tgFail embedOk [] ≠
      RouteOutcome.ok "mexican" [] 0 := by
  have heq : semanticSearchOutcome (n := 2) (some "mexican") tgFail embedOk [] =
      RouteOutcome.serverError := rfl
  refine ⟨heq, ?_⟩
  rw [heq]
  intro h
  exact RouteOutcome.noConfusion h

/-- C3 (amended): when the text-generation call cleaning the query fails,
the semantic-search request fails closed: the error reaches the route's
catch handler and the response is the generic 500 outcome; no embedding,
ranking or raw-query fallback occurs. -/
theorem c3_textgen_failure_fails_closed {n : Nat} (q : String)
    (tg : String → Except Unit String) (embed : String → Except Nat (Fin n → ℝ))
    (rows : List (ArtworkVec n)) (e : Unit)
    (hq : q.isEmpty = false) (htg : tg q = .error e) :
    semanticSearchOutcome (some q) tg embed rows = RouteOutcome.serverError := by
  simp [semanticSearchOutcome, hq, htg]

/-- C3 witness: concrete failing text-generation call on a non-empty
query. -/
theorem c3_witness :
    semanticSearchOutcome (n := 2) (some "aztec") tgFail embedOk [] =
      RouteOutcome.serverError :=
  c3_textgen_failure_fails_closed "aztec" tgFail embedOk [] () (by decide) rfl

/-- C1: the query-side embedding request uses the same model name as the
generation-time run documented in `README_PHASE1C.md` but asks for 3072
dimensions while the stored vectors were generated with 1536, violating
the equal-dimensionality precondition of the ranking. -/
theorem c1_dimension_mismatch :
    (queryEmbeddingRequest "mexican art").model = generationEmbeddingModel ∧
    (queryEmbeddingRequest "mexican art").dimensions = 3072 ∧
    generationEmbeddingDimensions = 1536 ∧
    (queryEmbeddingRequest "mexican art").dimensions ≠ generationEmbeddingDimensions := by
  refine ⟨rfl, rfl, rfl, ?_⟩
  decide

end Artefact
